import Mathlib

/-!
AcadBoost data-access layer: shallow embedding and verification

This file embeds the data-access layer of the AcadBoost repository
(`src/utils/database.py`, `src/utils/auth.py`, and the department repository in
`src/pages/admin/department_management.py`) into Lean 4 and proves properties of it.

Modelling conventions:

* A persisted JSON document whose top level is an object is modelled as an
  association list `Dict α = List (String × α)` with Python-`dict` semantics:
  `insertD` replaces the value of an existing key in place (keeping its
  position) and appends a fresh key at the end; `eraseD` removes the key;
  `lookupD` finds the first binding.  Stores produced by the real code always
  have pairwise-distinct keys; lemmas that need this take a `nodupKeys` or
  `countKey … ≤ 1` hypothesis.
* Each repository function is embedded as a pure function from the relevant
  document(s) (plus its arguments) to the pair of the value it returns and the
  document state *as persisted after the call*: on paths where the Python code
  returns without calling `save_data`, the input document is returned
  unchanged, exactly as the on-disk state is.
* `datetime.now()` timestamps are passed in as an explicit `now : String`
  argument.
* A Python keyword-argument record update (`record.update(kwargs)`) is
  modelled as an explicit record-transformation argument.
* The SHA-256 digest function of `auth.hash_password` is not re-implemented;
  functions that compare digests are parameterised by the digest function
  `hash : String → String`, which is all the control flow depends on.
-/

/-- Python-style string-keyed dictionary, as an association list. -/
abbrev Dict (α : Type) := List (String × α)

/-- `d[k]` lookup: first binding of `k`, if any. -/
def lookupD {α : Type} : Dict α → String → Option α
  | [], _ => none
  | (k', v) :: rest, k => if k' = k then some v else lookupD rest k

/-- `k in d` membership test. -/
def containsD {α : Type} (d : Dict α) (k : String) : Bool :=
  (lookupD d k).isSome

/-- `d[k] = v`: replace the first binding of `k` in place, or append a new
binding at the end (insertion-order semantics of a Python dict). -/
def insertD {α : Type} : Dict α → String → α → Dict α
  | [], k, v => [(k, v)]
  | (k', v') :: rest, k, v =>
      if k' = k then (k', v) :: rest else (k', v') :: insertD rest k v

/-- `del d[k]`: remove the first binding of `k`. -/
def eraseD {α : Type} : Dict α → String → Dict α
  | [], _ => []
  | (k', v') :: rest, k => if k' = k then rest else (k', v') :: eraseD rest k

/-- Number of bindings of key `k` (a real Python dict always has 0 or 1). -/
def countKey {α : Type} : Dict α → String → Nat
  | [], _ => 0
  | (k0, _) :: rest, k => (if k0 = k then 1 else 0) + countKey rest k

/-- The keys of the dictionary are pairwise distinct (true of every document a
Python dict can produce). -/
def nodupKeysB {α : Type} : Dict α → Bool
  | [] => true
  | (k, _) :: rest => !containsD rest k && nodupKeysB rest

def nodupKeys {α : Type} (d : Dict α) : Prop :=
  nodupKeysB d = true

instance {α : Type} (d : Dict α) : Decidable (nodupKeys d) := by
  unfold nodupKeys; infer_instance

theorem lookupD_insertD_self {α : Type} (d : Dict α) (k : String) (v : α) :
    lookupD (insertD d k v) k = some v := by
  induction d with
  | nil => simp [insertD, lookupD]
  | cons kv rest ih =>
      obtain ⟨k0, v0⟩ := kv
      by_cases h : k0 = k
      · subst h; simp [insertD, lookupD]
      · simp [insertD, lookupD, h, ih]

theorem lookupD_insertD_ne {α : Type} (d : Dict α) (k k' : String) (v : α)
    (h : k' ≠ k) : lookupD (insertD d k v) k' = lookupD d k' := by
  induction d with
  | nil =>
      have h' : k ≠ k' := Ne.symm h
      simp [insertD, lookupD, h']
  | cons kv rest ih =>
      obtain ⟨k0, v0⟩ := kv
      by_cases hk : k0 = k
      · subst hk
        have h' : k0 ≠ k' := Ne.symm h
        simp [insertD, lookupD, h']
      · by_cases hk2 : k0 = k'
        · simp [insertD, lookupD, hk, hk2, h]
        · simp [insertD, lookupD, hk, hk2, ih]

theorem lookupD_eraseD_ne {α : Type} (d : Dict α) (k k' : String)
    (h : k' ≠ k) : lookupD (eraseD d k) k' = lookupD d k' := by
  induction d with
  | nil => simp [eraseD]
  | cons kv rest ih =>
      obtain ⟨k0, v0⟩ := kv
      by_cases hk : k0 = k
      · subst hk
        have h' : k0 ≠ k' := Ne.symm h
        simp [eraseD, lookupD, h']
      · by_cases hk2 : k0 = k'
        · simp [eraseD, lookupD, hk, hk2, h]
        · simp [eraseD, lookupD, hk, hk2, ih]

theorem lookupD_eq_none_of_contains_false {α : Type} (d : Dict α) (k : String)
    (h : containsD d k = false) : lookupD d k = none := by
  unfold containsD at h
  cases hd : lookupD d k with
  | none => rfl
  | some v => rw [hd] at h; simp at h

theorem lookupD_eraseD_self {α : Type} (d : Dict α) (k : String)
    (h : nodupKeys d) : lookupD (eraseD d k) k = none := by
  induction d with
  | nil => simp [eraseD, lookupD]
  | cons kv rest ih =>
      obtain ⟨k0, v0⟩ := kv
      unfold nodupKeys nodupKeysB at h
      simp at h
      by_cases hk : k0 = k
      · subst hk
        simpa [eraseD] using lookupD_eq_none_of_contains_false rest k0 h.1
      · simp [eraseD, lookupD, hk]
        exact ih h.2

theorem countKey_eq_zero_iff {α : Type} (d : Dict α) (k : String) :
    countKey d k = 0 ↔ lookupD d k = none := by
  induction d with
  | nil => simp [countKey, lookupD]
  | cons kv rest ih =>
      obtain ⟨k0, v0⟩ := kv
      by_cases hk : k0 = k
      · subst hk; simp [countKey, lookupD]
      · simp [countKey, lookupD, hk, ih]

theorem countKey_le_one_of_nodup {α : Type} (d : Dict α) (k : String)
    (h : nodupKeys d) : countKey d k ≤ 1 := by
  induction d with
  | nil => simp [countKey]
  | cons kv rest ih =>
      obtain ⟨k0, v0⟩ := kv
      unfold nodupKeys nodupKeysB at h
      simp at h
      by_cases hk : k0 = k
      · subst hk
        have hz : countKey rest k0 = 0 :=
          (countKey_eq_zero_iff rest k0).mpr
            (lookupD_eq_none_of_contains_false rest k0 h.1)
        simp [countKey, hz]
      · simp [countKey, hk]
        exact ih h.2

theorem countKey_insertD {α : Type} (d : Dict α) (k : String) (v : α)
    (h : countKey d k ≤ 1) : countKey (insertD d k v) k = 1 := by
  induction d with
  | nil => simp [insertD, countKey]
  | cons kv rest ih =>
      obtain ⟨k0, v0⟩ := kv
      by_cases hk : k0 = k
      · subst hk
        simp [countKey] at h
        have hz : countKey rest k0 = 0 := by omega
        simp [insertD, countKey, hz]
      · simp [countKey, hk] at h
        simp [insertD, countKey, hk]
        exact ih h

/-! ## Generic helpers for Python `for … enumerate` loops that mutate or delete
the first matching element of a list and then return, or fall through to a
failure result when nothing matches. -/

/-- Replace the first element satisfying `p` by its image under `f`;
`none` when no element matches (the loop falls through). -/
def updateFirstBy {α : Type} (p : α → Bool) (f : α → α) : List α → Option (List α)
  | [] => none
  | a :: rest =>
      if p a then some (f a :: rest)
      else (updateFirstBy p f rest).map (a :: ·)

/-- Delete the first element satisfying `p`; `none` when no element matches. -/
def removeFirstBy {α : Type} (p : α → Bool) : List α → Option (List α)
  | [] => none
  | a :: rest =>
      if p a then some rest
      else (removeFirstBy p rest).map (a :: ·)

theorem updateFirstBy_eq_none {α : Type} (p : α → Bool) (f : α → α)
    (l : List α) (h : ∀ a ∈ l, p a = false) : updateFirstBy p f l = none := by
  induction l with
  | nil => rfl
  | cons a rest ih =>
      have ha : p a = false := h a (by simp)
      simp [updateFirstBy, ha]
      exact ih (fun x hx => h x (by simp [hx]))

theorem removeFirstBy_eq_none {α : Type} (p : α → Bool)
    (l : List α) (h : ∀ a ∈ l, p a = false) : removeFirstBy p l = none := by
  induction l with
  | nil => rfl
  | cons a rest ih =>
      have ha : p a = false := h a (by simp)
      simp [removeFirstBy, ha]
      exact ih (fun x hx => h x (by simp [hx]))

/-! ## Data model (§3 of the design): one record type per entity, with the
fields each `database.py` constructor writes.  A JSON `null` (or an absent
optional key) is modelled as `none`. -/

/-- A user record in `users.json` (`src/utils/auth.py`).  The open-ended
`**kwargs` of `create_user` are modelled by the optional fields the pages pass. -/
structure User where
  password : String
  role : String
  name : String
  created_at : String
  department : Option String := none
  student_id : Option String := none
  year : Option Int := none
deriving DecidableEq, Repr

/-- A course record in `courses.json`. -/
structure Course where
  course_name : String
  department : String
  teacher_email : String
  description : String
  credits : Int
  created_at : String
deriving DecidableEq, Repr

/-- A department record in `departments.json`
(`src/pages/admin/department_management.py`). -/
structure Department where
  name : String
  hod_email : String
  description : String
  created_at : String
deriving DecidableEq, Repr

/-- One `{status, marked_at}` cell of the nested attendance map. -/
structure AttendanceRecord where
  status : String
  marked_at : String
deriving DecidableEq, Repr

/-- `attendance.json`: `course_id → date → student_email → record`. -/
abbrev Attendance := Dict (Dict (Dict AttendanceRecord))

/-- An assignment entry in `assignments.json` (values are lists per course). -/
structure Assignment where
  assignment_id : String
  title : String
  description : String
  due_date : String
  max_points : Int
  created_at : String
deriving DecidableEq, Repr

/-- A project entry in `projects.json`. -/
structure Project where
  project_id : String
  title : String
  description : String
  due_date : String
  max_points : Int
  group_project : Bool
  created_at : String
deriving DecidableEq, Repr

/-- A submission entry in `submissions.json` (values are lists per
assignment/project id).  Assignment submissions never carry `group_members`
and ungraded submissions never carry `graded_at`; an absent key is `none`. -/
structure Submission where
  student_email : String
  submission_text : String
  file_path : Option String := none
  group_members : Option (List String) := none
  submitted_at : String
  grade : Option Int := none
  feedback : Option String := none
  graded_at : Option String := none
deriving DecidableEq, Repr

/-- An announcement entry in `announcements.json` (a flat list). -/
structure Announcement where
  announcement_id : Nat
  title : String
  content : String
  author_email : String
  target_roles : Option (List String)
  target_departments : Option (List String)
  target_emails : Option (List String)
  created_at : String
deriving DecidableEq, Repr

/-- An exam record in `exams.json`. -/
structure Exam where
  exam_id : String
  exam_name : String
  exam_type : String
  semester : String
  date : String
  max_marks : Int
  created_at : String
deriving DecidableEq, Repr

/-- A subject record in `subjects.json`. -/
structure Subject where
  subject_id : String
  subject_name : String
  semester : String
  department : Option String
deriving DecidableEq, Repr

/-- One `{marks, remarks, updated_at}` cell of the nested exam-result map
`exam_id → student_email → subject_id → cell` in `exam_results.json`. -/
structure ExamResultCell where
  marks : Int
  remarks : Option String
  updated_at : String
deriving DecidableEq, Repr

abbrev ExamResults := Dict (Dict (Dict ExamResultCell))

/-! ## Identity & Access (`src/utils/auth.py`) -/

/-- `auth.authenticate`: exact (case-sensitive) email lookup, then digest
comparison; `hash` is the digest function (`hash_password` in the source). -/
def authenticate (hash : String → String) (users : Dict User)
    (email password : String) : Option User :=
  match lookupD users email with
  | some u => if u.password = hash password then some u else none
  | none => none

/-- `auth.create_user`; the `**kwargs` profile fields are passed explicitly. -/
def create_user (hash : String → String) (users : Dict User)
    (email password role name now : String)
    (department student_id : Option String) (year : Option Int) :
    (Bool × String) × Dict User :=
  if containsD users email then
    ((false, "Email already exists"), users)
  else
    ((true, "User created successfully"),
      insertD users email
        { password := hash password, role := role, name := name,
          created_at := now, department := department,
          student_id := student_id, year := year })

/-- `auth.update_user`.  `password` is the `kwargs["password"]` entry (`none`
when absent); a falsy (empty) password is dropped and the stored digest kept.
`applyOther` models the remaining `kwargs` applied by `dict.update` (they do
not touch the password field).  The session-state refresh for the currently
logged-in user is UI state, out of scope here. -/
def update_user (hash : String → String) (users : Dict User) (email : String)
    (password : Option String) (applyOther : User → User) :
    (Bool × String) × Dict User :=
  match lookupD users email with
  | none => ((false, "User not found"), users)
  | some u =>
      let u1 := applyOther u
      let u2 :=
        match password with
        | some p => if p = "" then u1 else { u1 with password := hash p }
        | none => u1
      ((true, "User updated successfully"), insertD users email u2)

/-- `auth.delete_user`. -/
def delete_user (users : Dict User) (email : String) :
    (Bool × String) × Dict User :=
  if containsD users email then
    ((true, "User deleted successfully"), eraseD users email)
  else
    ((false, "User not found"), users)

/-! ## Course repository (`database.py`) -/

def add_course (courses : Dict Course)
    (course_id course_name department teacher_email description : String)
    (credits : Int) (now : String) : (Bool × String) × Dict Course :=
  if containsD courses course_id then
    ((false, "Course ID already exists"), courses)
  else
    ((true, "Course added successfully"),
      insertD courses course_id
        { course_name := course_name, department := department,
          teacher_email := teacher_email, description := description,
          credits := credits, created_at := now })

/-- `update_course`; `applyKwargs` models `courses[course_id].update(kwargs)`. -/
def update_course (courses : Dict Course) (course_id : String)
    (applyKwargs : Course → Course) : (Bool × String) × Dict Course :=
  match lookupD courses course_id with
  | none => ((false, "Course not found"), courses)
  | some c =>
      ((true, "Course updated successfully"),
        insertD courses course_id (applyKwargs c))

def delete_course (courses : Dict Course) (course_id : String) :
    (Bool × String) × Dict Course :=
  if containsD courses course_id then
    ((true, "Course deleted successfully"), eraseD courses course_id)
  else
    ((false, "Course not found"), courses)

def get_teacher_courses (courses : Dict Course) (teacher_email : String) :
    Dict Course :=
  courses.filter (fun kv => kv.2.teacher_email == teacher_email)

/-! ## Attendance repository -/

def mark_attendance (att : Attendance)
    (course_id date student_email status now : String) :
    (Bool × String) × Attendance :=
  let att1 := if containsD att course_id then att else insertD att course_id []
  let dates := (lookupD att1 course_id).getD []
  let dates1 := if containsD dates date then dates else insertD dates date []
  let students := (lookupD dates1 date).getD []
  let students1 := insertD students student_email
    { status := status, marked_at := now }
  ((true, "Attendance marked successfully"),
    insertD att1 course_id (insertD dates1 date students1))

/-! ## Assignment repository -/

def create_assignment (assignments : Dict (List Assignment))
    (course_id title description due_date : String) (max_points : Int)
    (now : String) : (Bool × String × String) × Dict (List Assignment) :=
  let assignments1 :=
    if containsD assignments course_id then assignments
    else insertD assignments course_id []
  let lst := (lookupD assignments1 course_id).getD []
  let assignment_id := course_id ++ "_" ++ toString (lst.length + 1)
  ((true, "Assignment created successfully", assignment_id),
    insertD assignments1 course_id
      (lst ++ [{ assignment_id := assignment_id, title := title,
                 description := description, due_date := due_date,
                 max_points := max_points, created_at := now }]))

/-- `update_assignment`; `applyKwargs` models the `dict.update(kwargs)`. -/
def update_assignment (assignments : Dict (List Assignment))
    (course_id assignment_id : String) (applyKwargs : Assignment → Assignment) :
    (Bool × String) × Dict (List Assignment) :=
  match lookupD assignments course_id with
  | none => ((false, "Course not found"), assignments)
  | some lst =>
      match updateFirstBy (fun a => a.assignment_id == assignment_id)
          applyKwargs lst with
      | some lst1 =>
          ((true, "Assignment updated successfully"),
            insertD assignments course_id lst1)
      | none => ((false, "Assignment not found"), assignments)

def delete_assignment (assignments : Dict (List Assignment))
    (course_id assignment_id : String) :
    (Bool × String) × Dict (List Assignment) :=
  match lookupD assignments course_id with
  | none => ((false, "Course not found"), assignments)
  | some lst =>
      match removeFirstBy (fun a => a.assignment_id == assignment_id) lst with
      | some lst1 =>
          ((true, "Assignment deleted successfully"),
            insertD assignments course_id lst1)
      | none => ((false, "Assignment not found"), assignments)

/-! ## Submission repository (shared by assignments and projects) -/

def submit_assignment (subs : Dict (List Submission))
    (assignment_id student_email submission_text : String)
    (file_path : Option String) (now : String) :
    (Bool × String) × Dict (List Submission) :=
  let subs1 :=
    if containsD subs assignment_id then subs
    else insertD subs assignment_id []
  let lst := (lookupD subs1 assignment_id).getD []
  if lst.any (fun s => s.student_email == student_email) then
    -- duplicate: the code returns before `save_data`, so the document on
    -- disk is the original `subs`
    ((false, "You have already submitted this assignment"), subs)
  else
    ((true, "Assignment submitted successfully"),
      insertD subs1 assignment_id
        (lst ++ [{ student_email := student_email,
                   submission_text := submission_text,
                   file_path := file_path, submitted_at := now }]))

def submit_project (subs : Dict (List Submission))
    (project_id student_email submission_text : String)
    (file_path : Option String) (group_members : Option (List String))
    (now : String) : (Bool × String) × Dict (List Submission) :=
  let subs1 :=
    if containsD subs project_id then subs
    else insertD subs project_id []
  let lst := (lookupD subs1 project_id).getD []
  if lst.any (fun s => s.student_email == student_email) then
    ((false, "You have already submitted this project"), subs)
  else
    ((true, "Project submitted successfully"),
      insertD subs1 project_id
        (lst ++ [{ student_email := student_email,
                   submission_text := submission_text,
                   file_path := file_path, group_members := group_members,
                   submitted_at := now }]))

def grade_submission (subs : Dict (List Submission))
    (assignment_id student_email : String) (grade : Int)
    (feedback : Option String) (now : String) :
    (Bool × String) × Dict (List Submission) :=
  match lookupD subs assignment_id with
  | none => ((false, "Assignment not found"), subs)
  | some lst =>
      match updateFirstBy (fun s => s.student_email == student_email)
          (fun s => { s with grade := some grade, feedback := feedback,
                             graded_at := some now }) lst with
      | some lst1 =>
          ((true, "Submission graded successfully"),
            insertD subs assignment_id lst1)
      | none => ((false, "Submission not found"), subs)

/-! ## Project repository -/

def create_project (projects : Dict (List Project))
    (course_id title description due_date : String) (max_points : Int)
    (group_project : Bool) (now : String) :
    (Bool × String × String) × Dict (List Project) :=
  let projects1 :=
    if containsD projects course_id then projects
    else insertD projects course_id []
  let lst := (lookupD projects1 course_id).getD []
  let project_id := course_id ++ "_project_" ++ toString (lst.length + 1)
  ((true, "Project created successfully", project_id),
    insertD projects1 course_id
      (lst ++ [{ project_id := project_id, title := title,
                 description := description, due_date := due_date,
                 max_points := max_points, group_project := group_project,
                 created_at := now }]))

/-! ## Certificate repository

`submit_certificate` reads and writes `CERTIFICATES_FILE`
(= `os.path.join(DATA_DIR, "certificates.json")`), a map
`student_email → list of certificate records`, while
`get_student_certificates` calls `load_data("certificates.json")` — a
*relative* path, not joined with `DATA_DIR` — and iterates the loaded mapping
as `certificate_id → record` with a `student_email` field.  To capture this,
the certificate functions run over a small file-system model: a `Dict` from
path to document, where a document maps keys to values that are either a list
of submitted records (the shape `submit_certificate` writes) or a single
flat record (the shape `get_student_certificates` expects). -/

/-- A certificate record as written by `submit_certificate`
(the `verified_at` key is absent until verification). -/
structure CertRecord where
  certificate_id : String
  title : String
  issuing_organization : String
  issue_date : String
  file_path : Option String := none
  submitted_at : String
  verified : Bool := false
  verified_at : Option String := none
deriving DecidableEq, Repr

/-- A flat certificate record of the shape `get_student_certificates`
expects the values of the loaded document to have. -/
structure CertInfo where
  student_email : String
  title : String
  issuing_organization : String
  issue_date : String
deriving DecidableEq, Repr

/-- One value of a certificates document: either the list shape written by
`submit_certificate` or the flat-record shape read by
`get_student_certificates`. -/
inductive CertEntry where
  | certList (l : List CertRecord)
  | certObj (c : CertInfo)
deriving DecidableEq, Repr

abbrev CertDoc := Dict CertEntry

/-- A file system mapping path strings to certificate documents. -/
abbrev CertFS := Dict CertDoc

/-- `database.DATA_DIR` is an absolute directory path ending in `…/data`;
only the fact that it is a non-empty prefix matters here. -/
def DATA_DIR : String := "data"

/-- `database.CERTIFICATES_FILE = os.path.join(DATA_DIR, "certificates.json")`. -/
def CERTIFICATES_FILE : String := DATA_DIR ++ "/" ++ "certificates.json"

/-- The literal relative path passed to `load_data` by
`get_student_certificates`. -/
def STUDENT_CERTIFICATES_PATH : String := "certificates.json"

/-- `load_data`: a missing file is materialised as an empty document. -/
def loadCertDoc (fs : CertFS) (path : String) : CertDoc :=
  (lookupD fs path).getD []

/-- `database.submit_certificate`, over the file-system model.  Appending to a
value that is not a list raises in Python; that is modelled as `Except.error`. -/
def submit_certificate (fs : CertFS)
    (student_email title issuing_organization issue_date : String)
    (file_path : Option String) (now : String) :
    Except String ((Bool × String) × CertFS) :=
  let certs := loadCertDoc fs CERTIFICATES_FILE
  -- `if student_email not in certificates: certificates[student_email] = []`
  match (lookupD certs student_email).getD (CertEntry.certList []) with
  | CertEntry.certObj _ =>
      Except.error "AttributeError: dict object has no attribute append"
  | CertEntry.certList lst =>
      let certificate_id := student_email ++ "_" ++ toString (lst.length + 1)
      Except.ok ((true, "Certificate submitted successfully"),
        insertD fs CERTIFICATES_FILE
          (insertD certs student_email
            (CertEntry.certList
              (lst ++ [{ certificate_id := certificate_id, title := title,
                         issuing_organization := issuing_organization,
                         issue_date := issue_date, file_path := file_path,
                         submitted_at := now }]))))

/-- `database.verify_certificate`, over the same file-system model (it reads
and writes `CERTIFICATES_FILE`, whose values are list-shaped in practice).
A non-list value makes the enumeration loop iterate a non-list; entries of
the wrong shape are simply where Python would raise, modelled as failure of
the match, so this embedding requires the list shape. -/
def verify_certificate (certs : Dict (List CertRecord))
    (student_email certificate_id now : String) :
    (Bool × String) × Dict (List CertRecord) :=
  if containsD certs student_email then
    match updateFirstBy (fun c => c.certificate_id == certificate_id)
        (fun c => { c with verified := true, verified_at := some now })
        ((lookupD certs student_email).getD []) with
    | some lst1 =>
        ((true, "Certificate verified successfully"),
          insertD certs student_email lst1)
    | none => ((false, "Certificate not found"), certs)
  else
    ((false, "Student not found"), certs)

/-- `database.get_student_certificates`: loads the *relative* path
`"certificates.json"` and scans it as `certificate_id → record`, reading each
`student_email` field of each record.  Reaching a list-shaped value raises
`AttributeError` in Python (`list` has no `.get`), modelled as `Except.error`.
Matching records are returned as (certificate_id, record) pairs. -/
def collectStudentCerts (entries : CertDoc) (student_email : String) :
    Except String (List (String × CertInfo)) :=
  match entries with
  | [] => Except.ok []
  | (_, CertEntry.certList _) :: _ =>
      Except.error "AttributeError: list object has no attribute get"
  | (cert_id, CertEntry.certObj c) :: rest =>
      (collectStudentCerts rest student_email).map (fun l =>
        if c.student_email = student_email then (cert_id, c) :: l else l)

def get_student_certificates (fs : CertFS) (student_email : String) :
    Except String (List (String × CertInfo)) :=
  collectStudentCerts (loadCertDoc fs STUDENT_CERTIFICATES_PATH) student_email

/-! ## Announcement repository -/

/-- Python truthiness of an optional string (`None` and `""` are falsy). -/
def pyTruthyS : Option String → Bool
  | none => false
  | some s => !(s == "")

/-- Python truthiness of an optional list (`None` and `[]` are falsy). -/
def pyTruthyL : Option (List String) → Bool
  | none => false
  | some l => !l.isEmpty

/-- `x in l` for an optional viewer attribute and an optional target list
(false unless both are present). -/
def memOpt : Option String → Option (List String) → Bool
  | some s, some l => l.contains s
  | _, _ => false

def create_announcement (anns : List Announcement)
    (title content author_email : String)
    (target_roles target_departments target_emails : Option (List String))
    (now : String) : (Bool × String) × List Announcement :=
  let announcement_id := anns.length + 1
  ((true, "Announcement created successfully"),
    anns ++ [{ announcement_id := announcement_id, title := title,
               content := content, author_email := author_email,
               target_roles := target_roles,
               target_departments := target_departments,
               target_emails := target_emails, created_at := now }])

def delete_announcement (anns : List Announcement) (announcement_id : Nat) :
    (Bool × String) × List Announcement :=
  match removeFirstBy (fun a => a.announcement_id == announcement_id) anns with
  | some anns1 => ((true, "Announcement deleted successfully"), anns1)
  | none => ((false, "Announcement not found"), anns)

/-- The per-announcement visibility test of `get_filtered_announcements`,
transcribing the Python condition
`(not tr and not td and not te) or (role and tr and role in tr) or
 (department and td and department in td) or (email and te and email in te)`. -/
def announcementVisible (role department email : Option String)
    (a : Announcement) : Bool :=
  (!pyTruthyL a.target_roles && !pyTruthyL a.target_departments &&
      !pyTruthyL a.target_emails)
  || (pyTruthyS role && pyTruthyL a.target_roles &&
      memOpt role a.target_roles)
  || (pyTruthyS department && pyTruthyL a.target_departments &&
      memOpt department a.target_departments)
  || (pyTruthyS email && pyTruthyL a.target_emails &&
      memOpt email a.target_emails)

def get_filtered_announcements (anns : List Announcement)
    (role department email : Option String) : List Announcement :=
  anns.filter (announcementVisible role department email)

/-! ## Department repository (`src/pages/admin/department_management.py`) -/

def add_department (departments : Dict Department)
    (dept_id name hod_email description now : String) :
    (Bool × String) × Dict Department :=
  if containsD departments dept_id then
    ((false, "Department ID already exists"), departments)
  else
    ((true, "Department added successfully"),
      insertD departments dept_id
        { name := name, hod_email := hod_email,
          description := description, created_at := now })

def update_department (departments : Dict Department)
    (dept_id name hod_email description : String) :
    (Bool × String) × Dict Department :=
  match lookupD departments dept_id with
  | none => ((false, "Department not found"), departments)
  | some d =>
      ((true, "Department updated successfully"),
        insertD departments dept_id
          { d with name := name, hod_email := hod_email,
                   description := description })

def delete_department (departments : Dict Department) (courses : Dict Course)
    (dept_id : String) : (Bool × String) × Dict Department :=
  match lookupD departments dept_id with
  | none => ((false, "Department not found"), departments)
  | some dept =>
      if courses.any (fun kv => kv.2.department == dept.name) then
        ((false, "Cannot delete department that is in use by courses"),
          departments)
      else
        ((true, "Department deleted successfully"), eraseD departments dept_id)

/-! ## Exam / Subject / Exam-result repositories

Note the return shapes of the source: `add_subject` and `add_exam` return the
bare generated id, the `update_*`/`delete_*` functions return a bare boolean,
and `add_exam_result` returns the bare constant `True` — none of them return
a `(success, message)` pair. -/

def add_subject (subjects : Dict Subject)
    (subject_name semester : String) (department : Option String)
    (nowCompact : String) : String × Dict Subject :=
  let subject_id :=
    "subject_" ++ toString (subjects.length + 1) ++ "_" ++ nowCompact
  (subject_id,
    insertD subjects subject_id
      { subject_id := subject_id, subject_name := subject_name,
        semester := semester, department := department })

/-- `update_subject`: each field updates only when the argument is truthy. -/
def update_subject (subjects : Dict Subject) (subject_id : String)
    (subject_name semester department : Option String) :
    Bool × Dict Subject :=
  match lookupD subjects subject_id with
  | none => (false, subjects)
  | some s =>
      let s1 := match subject_name with
        | some n => if n = "" then s else { s with subject_name := n }
        | none => s
      let s2 := match semester with
        | some m => if m = "" then s1 else { s1 with semester := m }
        | none => s1
      let s3 := match department with
        | some d => if d = "" then s2 else { s2 with department := some d }
        | none => s2
      (true, insertD subjects subject_id s3)

def delete_subject (subjects : Dict Subject) (subject_id : String) :
    Bool × Dict Subject :=
  if containsD subjects subject_id then
    (true, eraseD subjects subject_id)
  else
    (false, subjects)

def add_exam (exams : Dict Exam)
    (exam_name exam_type semester date : String) (max_marks : Int)
    (nowCompact now : String) : String × Dict Exam :=
  let exam_id := "exam_" ++ toString (exams.length + 1) ++ "_" ++ nowCompact
  (exam_id,
    insertD exams exam_id
      { exam_id := exam_id, exam_name := exam_name, exam_type := exam_type,
        semester := semester, date := date, max_marks := max_marks,
        created_at := now })

/-- `update_exam`: fields update only when truthy (`max_marks = 0` is falsy
and is skipped, faithfully to `if max_marks:`). -/
def update_exam (exams : Dict Exam) (exam_id : String)
    (exam_name exam_type semester date : Option String)
    (max_marks : Option Int) : Bool × Dict Exam :=
  match lookupD exams exam_id with
  | none => (false, exams)
  | some e =>
      let e1 := match exam_name with
        | some n => if n = "" then e else { e with exam_name := n }
        | none => e
      let e2 := match exam_type with
        | some t => if t = "" then e1 else { e1 with exam_type := t }
        | none => e1
      let e3 := match semester with
        | some sm => if sm = "" then e2 else { e2 with semester := sm }
        | none => e2
      let e4 := match date with
        | some d => if d = "" then e3 else { e3 with date := d }
        | none => e3
      let e5 := match max_marks with
        | some m => if m = 0 then e4 else { e4 with max_marks := m }
        | none => e4
      (true, insertD exams exam_id e5)

def delete_exam_results (results : ExamResults) (exam_id : String) :
    Bool × ExamResults :=
  if containsD results exam_id then
    (true, eraseD results exam_id)
  else
    (false, results)

/-- `delete_exam`: deletes the exam, then cascades to
`delete_exam_results` (whose boolean result is ignored). -/
def delete_exam (exams : Dict Exam) (results : ExamResults)
    (exam_id : String) : Bool × Dict Exam × ExamResults :=
  if containsD exams exam_id then
    let exams1 := eraseD exams exam_id
    let results1 := (delete_exam_results results exam_id).2
    (true, exams1, results1)
  else
    (false, exams, results)

def add_exam_result (results : ExamResults)
    (exam_id student_email subject_id : String) (marks : Int)
    (remarks : Option String) (now : String) : Bool × ExamResults :=
  let results1 :=
    if containsD results exam_id then results else insertD results exam_id []
  let byStudent := (lookupD results1 exam_id).getD []
  let byStudent1 :=
    if containsD byStudent student_email then byStudent
    else insertD byStudent student_email []
  let bySubject := (lookupD byStudent1 student_email).getD []
  let bySubject1 := insertD bySubject subject_id
    { marks := marks, remarks := remarks, updated_at := now }
  (true,
    insertD results1 exam_id (insertD byStudent1 student_email bySubject1))

def delete_exam_result (results : ExamResults)
    (exam_id student_email subject_id : String) : Bool × ExamResults :=
  match lookupD results exam_id with
  | none => (false, results)
  | some byStudent =>
      match lookupD byStudent student_email with
      | none => (false, results)
      | some bySubject =>
          if containsD bySubject subject_id then
            let bySubject1 := eraseD bySubject subject_id
            let byStudent1 :=
              if bySubject1.isEmpty then eraseD byStudent student_email
              else insertD byStudent student_email bySubject1
            let results1 :=
              if byStudent1.isEmpty then eraseD results exam_id
              else insertD results exam_id byStudent1
            (true, results1)
          else
            (false, results)

/-! ## `remove_student_from_course` (reads assignments and projects, mutates
attendance and submissions) -/

def remove_student_from_course (att : Attendance)
    (subs : Dict (List Submission)) (assignments : Dict (List Assignment))
    (projects : Dict (List Project)) (course_id student_email : String) :
    (Bool × String) × Attendance × Dict (List Submission) :=
  match lookupD att course_id with
  | none => ((false, "Course not found"), att, subs)
  | some dates =>
      let removed := dates.any (fun dv => containsD dv.2 student_email)
      if removed then
        let dates1 := dates.map (fun dv => (dv.1, eraseD dv.2 student_email))
        let att1 := insertD att course_id dates1
        let courseAssignments := (lookupD assignments course_id).getD []
        let courseProjects := (lookupD projects course_id).getD []
        let subs1 := courseAssignments.foldl (fun s a =>
          if containsD s a.assignment_id then
            insertD s a.assignment_id
              (((lookupD s a.assignment_id).getD []).filter
                (fun x => !(x.student_email == student_email)))
          else s) subs
        let subs2 := courseProjects.foldl (fun s p =>
          if containsD s p.project_id then
            insertD s p.project_id
              (((lookupD s p.project_id).getD []).filter
                (fun x => !(x.student_email == student_email)))
          else s) subs1
        ((true, "Student " ++ student_email ++ " removed from course " ++
            course_id), att1, subs2)
      else
        ((false, "Student " ++ student_email ++ " not found in course " ++
            course_id), att, subs)

/-! ## Claim-side definitions -/

/-- The visibility predicate as the specification words it: an announcement is
visible when it has no targeting set at all, or the supplied role is a member
of `target_roles`, or the supplied department is a member of
`target_departments`, or the supplied email is a member of `target_emails`
(an OR across the three dimensions). -/
def specVisible (role department email : Option String)
    (a : Announcement) : Bool :=
  (a.target_roles.isNone && a.target_departments.isNone &&
      a.target_emails.isNone)
  || memOpt role a.target_roles
  || memOpt department a.target_departments
  || memOpt email a.target_emails

/-- The literal return form of a repository mutation in the source: a
`(success, message)` pair, a `(success, message, generated_id)` triple, a
bare boolean, or a bare generated id. -/
inductive RepoOutcome where
  | pair (success : Bool) (message : String)
  | pairWithId (success : Bool) (message : String) (generatedId : String)
  | bareBool (success : Bool)
  | bareId (id : String)
deriving DecidableEq, Repr

/-- Whether an outcome surfaces as a boolean-plus-message (optionally with a
generated id), the uniform shape the specification asserts. -/
def RepoOutcome.isBooleanPlusMessage : RepoOutcome → Bool
  | .pair _ _ => true
  | .pairWithId _ _ _ => true
  | .bareBool _ => false
  | .bareId _ => false

/-! Outcome of each mutation, by its literal `return` statements. -/

def add_course_outcome (courses : Dict Course)
    (course_id course_name department teacher_email description : String)
    (credits : Int) (now : String) : RepoOutcome :=
  let r := (add_course courses course_id course_name department teacher_email
    description credits now).1
  .pair r.1 r.2

def update_course_outcome (courses : Dict Course) (course_id : String)
    (applyKwargs : Course → Course) : RepoOutcome :=
  let r := (update_course courses course_id applyKwargs).1
  .pair r.1 r.2

def delete_course_outcome (courses : Dict Course) (course_id : String) :
    RepoOutcome :=
  let r := (delete_course courses course_id).1
  .pair r.1 r.2

def mark_attendance_outcome (att : Attendance)
    (course_id date student_email status now : String) : RepoOutcome :=
  let r := (mark_attendance att course_id date student_email status now).1
  .pair r.1 r.2

def create_assignment_outcome (assignments : Dict (List Assignment))
    (course_id title description due_date : String) (max_points : Int)
    (now : String) : RepoOutcome :=
  let r := (create_assignment assignments course_id title description due_date
    max_points now).1
  .pairWithId r.1 r.2.1 r.2.2

def update_assignment_outcome (assignments : Dict (List Assignment))
    (course_id assignment_id : String)
    (applyKwargs : Assignment → Assignment) : RepoOutcome :=
  let r := (update_assignment assignments course_id assignment_id
    applyKwargs).1
  .pair r.1 r.2

def delete_assignment_outcome (assignments : Dict (List Assignment))
    (course_id assignment_id : String) : RepoOutcome :=
  let r := (delete_assignment assignments course_id assignment_id).1
  .pair r.1 r.2

def submit_assignment_outcome (subs : Dict (List Submission))
    (assignment_id student_email submission_text : String)
    (file_path : Option String) (now : String) : RepoOutcome :=
  let r := (submit_assignment subs assignment_id student_email
    submission_text file_path now).1
  .pair r.1 r.2

def submit_project_outcome (subs : Dict (List Submission))
    (project_id student_email submission_text : String)
    (file_path : Option String) (group_members : Option (List String))
    (now : String) : RepoOutcome :=
  let r := (submit_project subs project_id student_email submission_text
    file_path group_members now).1
  .pair r.1 r.2

def grade_submission_outcome (subs : Dict (List Submission))
    (assignment_id student_email : String) (grade : Int)
    (feedback : Option String) (now : String) : RepoOutcome :=
  let r := (grade_submission subs assignment_id student_email grade feedback
    now).1
  .pair r.1 r.2

def create_project_outcome (projects : Dict (List Project))
    (course_id title description due_date : String) (max_points : Int)
    (group_project : Bool) (now : String) : RepoOutcome :=
  let r := (create_project projects course_id title description due_date
    max_points group_project now).1
  .pairWithId r.1 r.2.1 r.2.2

def verify_certificate_outcome (certs : Dict (List CertRecord))
    (student_email certificate_id now : String) : RepoOutcome :=
  let r := (verify_certificate certs student_email certificate_id now).1
  .pair r.1 r.2

def create_announcement_outcome (anns : List Announcement)
    (title content author_email : String)
    (target_roles target_departments target_emails : Option (List String))
    (now : String) : RepoOutcome :=
  let r := (create_announcement anns title content author_email target_roles
    target_departments target_emails now).1
  .pair r.1 r.2

def delete_announcement_outcome (anns : List Announcement)
    (announcement_id : Nat) : RepoOutcome :=
  let r := (delete_announcement anns announcement_id).1
  .pair r.1 r.2

def create_user_outcome (hash : String → String) (users : Dict User)
    (email password role name now : String)
    (department student_id : Option String) (year : Option Int) :
    RepoOutcome :=
  let r := (create_user hash users email password role name now department
    student_id year).1
  .pair r.1 r.2

def update_user_outcome (hash : String → String) (users : Dict User)
    (email : String) (password : Option String)
    (applyOther : User → User) : RepoOutcome :=
  let r := (update_user hash users email password applyOther).1
  .pair r.1 r.2

def delete_user_outcome (users : Dict User) (email : String) : RepoOutcome :=
  let r := (delete_user users email).1
  .pair r.1 r.2

def add_department_outcome (departments : Dict Department)
    (dept_id name hod_email description now : String) : RepoOutcome :=
  let r := (add_department departments dept_id name hod_email description
    now).1
  .pair r.1 r.2

def update_department_outcome (departments : Dict Department)
    (dept_id name hod_email description : String) : RepoOutcome :=
  let r := (update_department departments dept_id name hod_email
    description).1
  .pair r.1 r.2

def delete_department_outcome (departments : Dict Department)
    (courses : Dict Course) (dept_id : String) : RepoOutcome :=
  let r := (delete_department departments courses dept_id).1
  .pair r.1 r.2

def add_subject_outcome (subjects : Dict Subject)
    (subject_name semester : String) (department : Option String)
    (nowCompact : String) : RepoOutcome :=
  .bareId (add_subject subjects subject_name semester department
    nowCompact).1

def update_subject_outcome (subjects : Dict Subject) (subject_id : String)
    (subject_name semester department : Option String) : RepoOutcome :=
  .bareBool (update_subject subjects subject_id subject_name semester
    department).1

def delete_subject_outcome (subjects : Dict Subject) (subject_id : String) :
    RepoOutcome :=
  .bareBool (delete_subject subjects subject_id).1

def add_exam_outcome (exams : Dict Exam)
    (exam_name exam_type semester date : String) (max_marks : Int)
    (nowCompact now : String) : RepoOutcome :=
  .bareId (add_exam exams exam_name exam_type semester date max_marks
    nowCompact now).1

def update_exam_outcome (exams : Dict Exam) (exam_id : String)
    (exam_name exam_type semester date : Option String)
    (max_marks : Option Int) : RepoOutcome :=
  .bareBool (update_exam exams exam_id exam_name exam_type semester date
    max_marks).1

def delete_exam_outcome (exams : Dict Exam) (results : ExamResults)
    (exam_id : String) : RepoOutcome :=
  .bareBool (delete_exam exams results exam_id).1

def add_exam_result_outcome (results : ExamResults)
    (exam_id student_email subject_id : String) (marks : Int)
    (remarks : Option String) (now : String) : RepoOutcome :=
  .bareBool (add_exam_result results exam_id student_email subject_id marks
    remarks now).1

def delete_exam_result_outcome (results : ExamResults)
    (exam_id student_email subject_id : String) : RepoOutcome :=
  .bareBool (delete_exam_result results exam_id student_email subject_id).1

def delete_exam_results_outcome (results : ExamResults) (exam_id : String) :
    RepoOutcome :=
  .bareBool (delete_exam_results results exam_id).1

/-! ## Helpers for stating the claims -/

/-- Second-level lookup in a nested document
(`doc[k1][k2]`, `none` when any level is missing). -/
def lookup2 {α : Type} (d : Dict (Dict α)) (k1 k2 : String) : Option α :=
  lookupD ((lookupD d k1).getD []) k2

/-- Third-level lookup (`doc[k1][k2][k3]`). -/
def lookup3 {α : Type} (d : Dict (Dict (Dict α))) (k1 k2 k3 : String) :
    Option α :=
  lookupD ((lookup2 d k1 k2).getD []) k3

/-- Number of records the innermost map of a nested document holds for `k3`
under `k1`/`k2`. -/
def countKey3 {α : Type} (d : Dict (Dict (Dict α))) (k1 k2 k3 : String) :
    Nat :=
  countKey ((lookup2 d k1 k2).getD []) k3

/-- The stored submission list for an assignment or project id
(`submissions.get(id, [])`). -/
def submissionsFor (subs : Dict (List Submission)) (id : String) :
    List Submission :=
  (lookupD subs id).getD []

/-- How many stored submissions the pair `(id, student_email)` has. -/
def countPair (subs : Dict (List Submission)) (id student_email : String) :
    Nat :=
  (submissionsFor subs id).countP (fun s => s.student_email == student_email)

/-! ## Claims -/

/-- Claim C7: `authenticate(email, password)` returns the stored user record
if and only if the users store has an entry under exactly that (case-sensitive)
email whose stored password digest equals the hash of the supplied password;
in every other case it returns `none` (total, never an error). -/
theorem authenticate_email_and_digest_iff (hash : String → String)
    (users : Dict User) (email password : String) (u : User) :
    authenticate hash users email password = some u ↔
      (lookupD users email = some u ∧ u.password = hash password) := by
  unfold authenticate
  cases hl : lookupD users email with
  | none => simp
  | some u0 =>
      by_cases hp : u0.password = hash password
      · simp only [hp, if_pos rfl]
        constructor
        · intro h
          obtain rfl : u0 = u := by simpa using h
          exact ⟨rfl, hp⟩
        · intro h
          obtain rfl : u = u0 := by simpa using h.1.symm
          rfl
      · simp only [if_neg hp]
        constructor
        · intro h; simp at h
        · intro h
          obtain rfl : u = u0 := by simpa using h.1.symm
          exact absurd h.2 hp

/-- Claim C5 (counterexample): the exam and subject repositories do not
surface their outcome as a boolean-plus-message pair — at concrete inputs,
`add_exam` and `add_subject` return a bare generated id, and
`update_exam`/`delete_subject` return a bare boolean, refuting the claimed
uniform result shape. -/
theorem exam_subject_outcome_not_pair_cex :
    (add_exam_outcome [] "Midterm" "Mid Sem 1" "3" "2024-03-01" 100
        "20240301080000" "2024-03-01 08:00:00").isBooleanPlusMessage = false ∧
    (add_subject_outcome [] "Algorithms" "3" (some "Computer Science")
        "20240301080000").isBooleanPlusMessage = false ∧
    (update_exam_outcome [] "exam_1_x" none none none none
        none).isBooleanPlusMessage = false ∧
    (delete_subject_outcome [] "subject_1_x").isBooleanPlusMessage = false :=
  ⟨rfl, rfl, rfl, rfl⟩

/-- Claim C5 (amended): the user, course, department, announcement,
attendance, assignment, project, submission and certificate mutations all
surface their outcome as a (success, message) pair — `create_assignment` and
`create_project` additionally carry the generated id — but the exam, subject
and exam-result repositories do not: `add_subject` and `add_exam` return a
bare generated id and their update/delete operations (and the exam-result
mutations) return a bare boolean. -/
theorem repo_outcome_shapes :
    (∀ courses course_id course_name department teacher_email description
        credits now,
      (add_course_outcome courses course_id course_name department
        teacher_email description credits now).isBooleanPlusMessage = true) ∧
    (∀ courses course_id applyKwargs,
      (update_course_outcome courses course_id
        applyKwargs).isBooleanPlusMessage = true) ∧
    (∀ courses course_id,
      (delete_course_outcome courses course_id).isBooleanPlusMessage
        = true) ∧
    (∀ att course_id date student_email status now,
      (mark_attendance_outcome att course_id date student_email status
        now).isBooleanPlusMessage = true) ∧
    (∀ assignments course_id title description due_date max_points now,
      (create_assignment_outcome assignments course_id title description
        due_date max_points now).isBooleanPlusMessage = true) ∧
    (∀ assignments course_id assignment_id applyKwargs,
      (update_assignment_outcome assignments course_id assignment_id
        applyKwargs).isBooleanPlusMessage = true) ∧
    (∀ assignments course_id assignment_id,
      (delete_assignment_outcome assignments course_id
        assignment_id).isBooleanPlusMessage = true) ∧
    (∀ subs assignment_id student_email submission_text file_path now,
      (submit_assignment_outcome subs assignment_id student_email
        submission_text file_path now).isBooleanPlusMessage = true) ∧
    (∀ subs project_id student_email submission_text file_path group_members
        now,
      (submit_project_outcome subs project_id student_email submission_text
        file_path group_members now).isBooleanPlusMessage = true) ∧
    (∀ subs assignment_id student_email grade feedback now,
      (grade_submission_outcome subs assignment_id student_email grade
        feedback now).isBooleanPlusMessage = true) ∧
    (∀ projects course_id title description due_date max_points group_project
        now,
      (create_project_outcome projects course_id title description due_date
        max_points group_project now).isBooleanPlusMessage = true) ∧
    (∀ certs student_email certificate_id now,
      (verify_certificate_outcome certs student_email certificate_id
        now).isBooleanPlusMessage = true) ∧
    (∀ anns title content author_email target_roles target_departments
        target_emails now,
      (create_announcement_outcome anns title content author_email
        target_roles target_departments target_emails
        now).isBooleanPlusMessage = true) ∧
    (∀ anns announcement_id,
      (delete_announcement_outcome anns
        announcement_id).isBooleanPlusMessage = true) ∧
    (∀ hash users email password role name now department student_id year,
      (create_user_outcome hash users email password role name now department
        student_id year).isBooleanPlusMessage = true) ∧
    (∀ hash users email password applyOther,
      (update_user_outcome hash users email password
        applyOther).isBooleanPlusMessage = true) ∧
    (∀ users email,
      (delete_user_outcome users email).isBooleanPlusMessage = true) ∧
    (∀ departments dept_id name hod_email description now,
      (add_department_outcome departments dept_id name hod_email description
        now).isBooleanPlusMessage = true) ∧
    (∀ departments dept_id name hod_email description,
      (update_department_outcome departments dept_id name hod_email
        description).isBooleanPlusMessage = true) ∧
    (∀ departments courses dept_id,
      (delete_department_outcome departments courses
        dept_id).isBooleanPlusMessage = true) ∧
    (∀ subjects subject_name semester department nowCompact,
      (add_subject_outcome subjects subject_name semester department
        nowCompact).isBooleanPlusMessage = false) ∧
    (∀ subjects subject_id subject_name semester department,
      (update_subject_outcome subjects subject_id subject_name semester
        department).isBooleanPlusMessage = false) ∧
    (∀ subjects subject_id,
      (delete_subject_outcome subjects subject_id).isBooleanPlusMessage
        = false) ∧
    (∀ exams exam_name exam_type semester date max_marks nowCompact now,
      (add_exam_outcome exams exam_name exam_type semester date max_marks
        nowCompact now).isBooleanPlusMessage = false) ∧
    (∀ exams exam_id exam_name exam_type semester date max_marks,
      (update_exam_outcome exams exam_id exam_name exam_type semester date
        max_marks).isBooleanPlusMessage = false) ∧
    (∀ exams results exam_id,
      (delete_exam_outcome exams results exam_id).isBooleanPlusMessage
        = false) ∧
    (∀ results exam_id student_email subject_id marks remarks now,
      (add_exam_result_outcome results exam_id student_email subject_id marks
        remarks now).isBooleanPlusMessage = false) ∧
    (∀ results exam_id student_email subject_id,
      (delete_exam_result_outcome results exam_id student_email
        subject_id).isBooleanPlusMessage = false) ∧
    (∀ results exam_id,
      (delete_exam_results_outcome results exam_id).isBooleanPlusMessage
        = false) := by
  repeat' apply And.intro
  all_goals intros; rfl

/-- Claim C3 (counterexample): grading a pair whose assignment id is absent
from the submissions store altogether fails with the message
"Assignment not found", not the claimed "Submission not found". -/
theorem grade_submission_missing_assignment_message_cex :
    grade_submission [] "CS101_1" "student@college.edu" 85 none
        "2024-01-15 10:00:00" =
      ((false, "Assignment not found"), []) ∧
    ("Assignment not found" : String) ≠ "Submission not found" ∧
    countPair [] "CS101_1" "student@college.edu" = 0 :=
  ⟨rfl, by decide, rfl⟩

/-- Claim C3 (amended): when the submissions store has no entry for the
(assignment_id, student_email) pair, `grade_submission` fails and leaves the
store unchanged, with message "Submission not found" when the assignment id
is a key of the store and "Assignment not found" when it is not. -/
theorem grade_submission_no_submission_fails (subs : Dict (List Submission))
    (assignment_id student_email : String) (grade : Int)
    (feedback : Option String) (now : String)
    (h : ∀ s ∈ submissionsFor subs assignment_id,
        s.student_email ≠ student_email) :
    (grade_submission subs assignment_id student_email grade feedback
        now).1.1 = false ∧
    (grade_submission subs assignment_id student_email grade feedback
        now).2 = subs ∧
    (grade_submission subs assignment_id student_email grade feedback
        now).1.2 =
      (if containsD subs assignment_id then "Submission not found"
       else "Assignment not found") := by
  cases hl : lookupD subs assignment_id with
  | none =>
      have hc : containsD subs assignment_id = false := by
        simp [containsD, hl]
      simp [grade_submission, hl, hc]
  | some lst =>
      have hc : containsD subs assignment_id = true := by
        simp [containsD, hl]
      have hall : ∀ s ∈ lst, (s.student_email == student_email) = false := by
        intro s hs
        have := h s (by simp [submissionsFor, hl, hs])
        simpa using this
      simp [grade_submission, hl, updateFirstBy_eq_none _ _ lst hall, hc]

/-- A one-assignment submissions store holding a single submission by
`other@college.edu`, used to instantiate hypothesis-bearing theorems. -/
def sampleSubs : Dict (List Submission) :=
  [("CS101_1",
    [{ student_email := "other@college.edu",
       submission_text := "answer",
       submitted_at := "2024-01-12 09:00:00" }])]

/-- Claim C3 (witness): the amended statement at a concrete store holding a
submission by a different student. -/
theorem grade_submission_no_submission_fails_witness :
    (grade_submission sampleSubs "CS101_1" "student@college.edu" 85 none
        "2024-01-15 10:00:00").1.1 = false ∧
    (grade_submission sampleSubs "CS101_1" "student@college.edu" 85 none
        "2024-01-15 10:00:00").2 = sampleSubs ∧
    (grade_submission sampleSubs "CS101_1" "student@college.edu" 85 none
        "2024-01-15 10:00:00").1.2 =
      (if containsD sampleSubs "CS101_1"
       then "Submission not found" else "Assignment not found") := by
  exact grade_submission_no_submission_fails _ _ _ _ _ _ (by decide)

/-- Claim C4: deleting the department `dept_id` fails and leaves the
departments store unchanged whenever the `department` field of some course
textually equals the `name` of that department; when no course references the
name, the delete succeeds and removes exactly that department. -/
theorem delete_department_guard (departments : Dict Department)
    (courses : Dict Course) (dept_id : String) (dept : Department)
    (hfind : lookupD departments dept_id = some dept)
    (hnodup : nodupKeys departments) :
    (courses.any (fun kv => kv.2.department == dept.name) = true →
        delete_department departments courses dept_id =
          ((false, "Cannot delete department that is in use by courses"),
            departments)) ∧
    (courses.any (fun kv => kv.2.department == dept.name) = false →
        (delete_department departments courses dept_id).1 =
          (true, "Department deleted successfully") ∧
        lookupD (delete_department departments courses dept_id).2 dept_id
          = none ∧
        ∀ k, k ≠ dept_id →
          lookupD (delete_department departments courses dept_id).2 k
            = lookupD departments k) := by
  constructor
  · intro hin
    simp [delete_department, hfind, hin]
  · intro hout
    refine ⟨?_, ?_, ?_⟩
    · simp [delete_department, hfind, hout]
    · simp only [delete_department, hfind, hout]
      simpa using lookupD_eraseD_self departments dept_id hnodup
    · intro k hk
      simp only [delete_department, hfind, hout]
      simpa using lookupD_eraseD_ne departments dept_id k hk

/-- A two-department store used to instantiate the department claims. -/
def sampleDepartments : Dict Department :=
  [("CS", { name := "Computer Science", hod_email := "teacher@college.edu",
            description := "Department of Computer Science",
            created_at := "2024-01-01" }),
   ("MATH", { name := "Mathematics", hod_email := "teacher@college.edu",
              description := "Department of Mathematics",
              created_at := "2024-01-01" })]

/-- A one-course store whose course belongs to "Computer Science". -/
def sampleCourses : Dict Course :=
  [("CS101", { course_name := "Intro to CS", department := "Computer Science",
               teacher_email := "teacher@college.edu",
               description := "Basics", credits := 3,
               created_at := "2024-01-02" })]

/-- Claim C4 (witness): with a course pointing at "Computer Science" the
delete of "CS" fails unchanged; with no course referencing it the delete
succeeds, removes "CS" and keeps "MATH". -/
theorem delete_department_guard_witness :
    delete_department sampleDepartments sampleCourses "CS" =
      ((false, "Cannot delete department that is in use by courses"),
        sampleDepartments) ∧
    ((delete_department sampleDepartments [] "CS").1 =
        (true, "Department deleted successfully") ∧
      lookupD (delete_department sampleDepartments [] "CS").2 "CS" = none ∧
      lookupD (delete_department sampleDepartments [] "CS").2 "MATH" =
        lookupD sampleDepartments "MATH") := by
  constructor
  · exact (delete_department_guard sampleDepartments sampleCourses "CS"
      { name := "Computer Science", hod_email := "teacher@college.edu",
        description := "Department of Computer Science",
        created_at := "2024-01-01" }
      (by decide) (by decide)).1 (by decide)
  · have h := (delete_department_guard sampleDepartments [] "CS"
      { name := "Computer Science", hod_email := "teacher@college.edu",
        description := "Department of Computer Science",
        created_at := "2024-01-01" }
      (by decide) (by decide)).2 (by decide)
    exact ⟨h.1, h.2.1, h.2.2 "MATH" (by decide)⟩

/-- Claim C9: `delete_exam` on an existing exam id removes the exam and every
exam result stored under that id, leaving all other exams and results
unchanged; on a missing id it returns `false` and changes neither document. -/
theorem delete_exam_cascade (exams : Dict Exam) (results : ExamResults)
    (exam_id : String) (hne : nodupKeys exams) (hnr : nodupKeys results) :
    (containsD exams exam_id = true →
        (delete_exam exams results exam_id).1 = true ∧
        lookupD (delete_exam exams results exam_id).2.1 exam_id = none ∧
        (∀ k, k ≠ exam_id →
          lookupD (delete_exam exams results exam_id).2.1 k
            = lookupD exams k) ∧
        lookupD (delete_exam exams results exam_id).2.2 exam_id = none ∧
        (∀ k, k ≠ exam_id →
          lookupD (delete_exam exams results exam_id).2.2 k
            = lookupD results k)) ∧
    (containsD exams exam_id = false →
        delete_exam exams results exam_id = (false, exams, results)) := by
  constructor
  · intro hc
    have hres : lookupD (delete_exam exams results exam_id).2.2 exam_id
        = none ∧
        ∀ k, k ≠ exam_id →
          lookupD (delete_exam exams results exam_id).2.2 k
            = lookupD results k := by
      by_cases hr : containsD results exam_id
      · constructor
        · simp only [delete_exam, delete_exam_results, hc, hr, if_pos rfl,
            if_true]
          simpa using lookupD_eraseD_self results exam_id hnr
        · intro k hk
          simp only [delete_exam, delete_exam_results, hc, hr, if_true]
          simpa using lookupD_eraseD_ne results exam_id k hk
      · constructor
        · simp only [delete_exam, delete_exam_results, hc, if_true]
          simp [hr]
          exact lookupD_eq_none_of_contains_false results exam_id
            (by simpa using hr)
        · intro k hk
          simp only [delete_exam, delete_exam_results, hc, if_true]
          simp [hr]
    refine ⟨by simp [delete_exam, hc], ?_, ?_, hres.1, hres.2⟩
    · simp only [delete_exam, hc, if_true]
      simpa using lookupD_eraseD_self exams exam_id hne
    · intro k hk
      simp only [delete_exam, hc, if_true]
      simpa using lookupD_eraseD_ne exams exam_id k hk
  · intro hc
    simp [delete_exam, hc]

/-- A two-exam store used to instantiate the exam claims. -/
def sampleExams : Dict Exam :=
  [("exam_1_a", { exam_id := "exam_1_a", exam_name := "Midterm",
                  exam_type := "Mid Sem 1", semester := "3",
                  date := "2024-03-01", max_marks := 100,
                  created_at := "2024-02-01 08:00:00" }),
   ("exam_2_b", { exam_id := "exam_2_b", exam_name := "Final",
                  exam_type := "End Sem", semester := "3",
                  date := "2024-05-01", max_marks := 100,
                  created_at := "2024-02-01 08:00:00" })]

/-- Exam results for both sample exams. -/
def sampleExamResults : ExamResults :=
  [("exam_1_a",
    [("student@college.edu",
      [("subject_1_x", { marks := 80, remarks := none,
                         updated_at := "2024-03-02" })])]),
   ("exam_2_b",
    [("student@college.edu",
      [("subject_1_x", { marks := 90, remarks := none,
                         updated_at := "2024-05-02" })])])]

/-- Claim C9 (witness): deleting `exam_1_a` succeeds, removes it and its
results, keeps `exam_2_b` and its results; deleting a missing id is a no-op
returning `false`. -/
theorem delete_exam_cascade_witness :
    (delete_exam sampleExams sampleExamResults "exam_1_a").1 = true ∧
    lookupD (delete_exam sampleExams sampleExamResults "exam_1_a").2.1
      "exam_1_a" = none ∧
    lookupD (delete_exam sampleExams sampleExamResults "exam_1_a").2.1
      "exam_2_b" = lookupD sampleExams "exam_2_b" ∧
    lookupD (delete_exam sampleExams sampleExamResults "exam_1_a").2.2
      "exam_1_a" = none ∧
    lookupD (delete_exam sampleExams sampleExamResults "exam_1_a").2.2
      "exam_2_b" = lookupD sampleExamResults "exam_2_b" ∧
    delete_exam sampleExams sampleExamResults "exam_9_z" =
      (false, sampleExams, sampleExamResults) := by
  have h := delete_exam_cascade sampleExams sampleExamResults "exam_1_a"
    (by decide) (by decide)
  have h1 := h.1 (by decide)
  have h2 := delete_exam_cascade sampleExams sampleExamResults "exam_9_z"
    (by decide) (by decide)
  exact ⟨h1.1, h1.2.1, h1.2.2.1 "exam_2_b" (by decide), h1.2.2.2.1,
    h1.2.2.2.2 "exam_2_b" (by decide), h2.2 (by decide)⟩

theorem insertD_insertD {α : Type} (d : Dict α) (k : String) (v w : α) :
    insertD (insertD d k v) k w = insertD d k w := by
  induction d with
  | nil => simp [insertD]
  | cons kv rest ih =>
      obtain ⟨k0, v0⟩ := kv
      by_cases hk : k0 = k
      · subst hk; simp [insertD]
      · simp [insertD, hk, ih]

/-- Reduction of `submit_assignment` on a duplicate (id, student) pair. -/
theorem submit_assignment_duplicate (subs : Dict (List Submission))
    (id student_email submission_text : String) (file_path : Option String)
    (now : String)
    (hany : (submissionsFor subs id).any
        (fun s => s.student_email == student_email) = true) :
    submit_assignment subs id student_email submission_text file_path now =
      ((false, "You have already submitted this assignment"), subs) := by
  by_cases hc : containsD subs id
  · cases hl : lookupD subs id with
    | none => simp [containsD, hl] at hc
    | some lst =>
        have hanyl : lst.any (fun s => s.student_email == student_email)
            = true := by simpa [submissionsFor, hl] using hany
        simp [submit_assignment, hc, hl, hanyl]
  · have hl : lookupD subs id = none :=
      lookupD_eq_none_of_contains_false subs id (by simpa using hc)
    simp [submissionsFor, hl] at hany

/-- Reduction of `submit_assignment` on a fresh (id, student) pair. -/
theorem submit_assignment_fresh (subs : Dict (List Submission))
    (id student_email submission_text : String) (file_path : Option String)
    (now : String)
    (hany : (submissionsFor subs id).any
        (fun s => s.student_email == student_email) = false) :
    submit_assignment subs id student_email submission_text file_path now =
      ((true, "Assignment submitted successfully"),
        insertD subs id (submissionsFor subs id ++
          [{ student_email := student_email,
             submission_text := submission_text,
             file_path := file_path, submitted_at := now }])) := by
  by_cases hc : containsD subs id
  · cases hl : lookupD subs id with
    | none => simp [containsD, hl] at hc
    | some lst =>
        have hanyl : lst.any (fun s => s.student_email == student_email)
            = false := by simpa [submissionsFor, hl] using hany
        simp [submit_assignment, submissionsFor, hc, hl, hanyl]
  · have hl : lookupD subs id = none :=
      lookupD_eq_none_of_contains_false subs id (by simpa using hc)
    simp [submit_assignment, submissionsFor, hc, hl,
      lookupD_insertD_self, insertD_insertD]

/-- Reduction of `submit_project` on a duplicate (id, student) pair. -/
theorem submit_project_duplicate (subs : Dict (List Submission))
    (id student_email submission_text : String) (file_path : Option String)
    (group_members : Option (List String)) (now : String)
    (hany : (submissionsFor subs id).any
        (fun s => s.student_email == student_email) = true) :
    submit_project subs id student_email submission_text file_path
        group_members now =
      ((false, "You have already submitted this project"), subs) := by
  by_cases hc : containsD subs id
  · cases hl : lookupD subs id with
    | none => simp [containsD, hl] at hc
    | some lst =>
        have hanyl : lst.any (fun s => s.student_email == student_email)
            = true := by simpa [submissionsFor, hl] using hany
        simp [submit_project, hc, hl, hanyl]
  · have hl : lookupD subs id = none :=
      lookupD_eq_none_of_contains_false subs id (by simpa using hc)
    simp [submissionsFor, hl] at hany

/-- Reduction of `submit_project` on a fresh (id, student) pair. -/
theorem submit_project_fresh (subs : Dict (List Submission))
    (id student_email submission_text : String) (file_path : Option String)
    (group_members : Option (List String)) (now : String)
    (hany : (submissionsFor subs id).any
        (fun s => s.student_email == student_email) = false) :
    submit_project subs id student_email submission_text file_path
        group_members now =
      ((true, "Project submitted successfully"),
        insertD subs id (submissionsFor subs id ++
          [{ student_email := student_email,
             submission_text := submission_text,
             file_path := file_path, group_members := group_members,
             submitted_at := now }])) := by
  by_cases hc : containsD subs id
  · cases hl : lookupD subs id with
    | none => simp [containsD, hl] at hc
    | some lst =>
        have hanyl : lst.any (fun s => s.student_email == student_email)
            = false := by simpa [submissionsFor, hl] using hany
        simp [submit_project, submissionsFor, hc, hl, hanyl]
  · have hl : lookupD subs id = none :=
      lookupD_eq_none_of_contains_false subs id (by simpa using hc)
    simp [submit_project, submissionsFor, hc, hl,
      lookupD_insertD_self, insertD_insertD]

/-- Claim C1: if the submissions store already holds an entry for the
(id, student_email) pair, `submit_assignment`/`submit_project` fail with a
conflict message and leave the persisted store unchanged (so the pair keeps
exactly its one entry); on a pair with no entry, a submit succeeds and adds
exactly one entry for that pair, touching no other id. -/
theorem submit_uniqueness (subs : Dict (List Submission))
    (id student_email submission_text : String) (file_path : Option String)
    (group_members : Option (List String)) (now : String) :
    ((∃ s ∈ submissionsFor subs id, s.student_email = student_email) →
        submit_assignment subs id student_email submission_text file_path now
          = ((false, "You have already submitted this assignment"), subs) ∧
        submit_project subs id student_email submission_text file_path
            group_members now
          = ((false, "You have already submitted this project"), subs)) ∧
    (countPair subs id student_email = 0 →
        ((submit_assignment subs id student_email submission_text file_path
            now).1.1 = true ∧
         (∃ s, s.student_email = student_email ∧
            submissionsFor (submit_assignment subs id student_email
                submission_text file_path now).2 id
              = submissionsFor subs id ++ [s]) ∧
         countPair (submit_assignment subs id student_email submission_text
            file_path now).2 id student_email = 1 ∧
         (∀ k, k ≠ id →
            lookupD (submit_assignment subs id student_email submission_text
              file_path now).2 k = lookupD subs k)) ∧
        ((submit_project subs id student_email submission_text file_path
            group_members now).1.1 = true ∧
         (∃ s, s.student_email = student_email ∧
            submissionsFor (submit_project subs id student_email
                submission_text file_path group_members now).2 id
              = submissionsFor subs id ++ [s]) ∧
         countPair (submit_project subs id student_email submission_text
            file_path group_members now).2 id student_email = 1 ∧
         (∀ k, k ≠ id →
            lookupD (submit_project subs id student_email submission_text
              file_path group_members now).2 k = lookupD subs k))) := by
  constructor
  · rintro ⟨s, hs, he⟩
    have hany : (submissionsFor subs id).any
        (fun s => s.student_email == student_email) = true :=
      List.any_eq_true.mpr ⟨s, hs, by simp [he]⟩
    exact ⟨submit_assignment_duplicate subs id student_email submission_text
        file_path now hany,
      submit_project_duplicate subs id student_email submission_text
        file_path group_members now hany⟩
  · intro h0
    have hcnt : (submissionsFor subs id).countP
        (fun s => s.student_email == student_email) = 0 := h0
    have hany : (submissionsFor subs id).any
        (fun s => s.student_email == student_email) = false := by
      rw [List.any_eq_false]
      intro s hs
      have := List.countP_eq_zero.mp hcnt s hs
      simpa using this
    constructor
    · rw [submit_assignment_fresh subs id student_email submission_text
        file_path now hany]
      refine ⟨rfl,
        ⟨{ student_email := student_email,
           submission_text := submission_text,
           file_path := file_path, submitted_at := now }, rfl, ?_⟩, ?_, ?_⟩
      · simp [submissionsFor, lookupD_insertD_self]
      · simp [countPair, submissionsFor, lookupD_insertD_self,
          List.countP_append]
        intro a ha
        have := List.countP_eq_zero.mp hcnt a
          (by simpa [submissionsFor] using ha)
        simpa using this
      · intro k hk
        exact lookupD_insertD_ne subs id k _ hk
    · rw [submit_project_fresh subs id student_email submission_text
        file_path group_members now hany]
      refine ⟨rfl,
        ⟨{ student_email := student_email,
           submission_text := submission_text,
           file_path := file_path, group_members := group_members,
           submitted_at := now }, rfl, ?_⟩, ?_, ?_⟩
      · simp [submissionsFor, lookupD_insertD_self]
      · simp [countPair, submissionsFor, lookupD_insertD_self,
          List.countP_append]
        intro a ha
        have := List.countP_eq_zero.mp hcnt a
          (by simpa [submissionsFor] using ha)
        simpa using this
      · intro k hk
        exact lookupD_insertD_ne subs id k _ hk

/-- A submissions store with one assignment submission by Alice, used to
instantiate the submission-uniqueness claim. -/
def submitSampleSubs : Dict (List Submission) :=
  [("a1", [{ student_email := "alice@college.edu",
             submission_text := "first",
             submitted_at := "2024-01-10 10:00:00" }])]

/-- Claim C1 (witness): the second submit by Alice fails and leaves the store
unchanged; the first submit by Bob succeeds, leaves exactly one entry for his
pair and does not touch other ids. -/
theorem submit_uniqueness_witness :
    submit_assignment submitSampleSubs "a1" "alice@college.edu" "again" none
        "t2"
      = ((false, "You have already submitted this assignment"),
         submitSampleSubs) ∧
    submit_project submitSampleSubs "a1" "alice@college.edu" "again" none
        none "t2"
      = ((false, "You have already submitted this project"),
         submitSampleSubs) ∧
    (submit_assignment submitSampleSubs "a1" "bob@college.edu" "mine" none
        "t2").1.1 = true ∧
    countPair (submit_assignment submitSampleSubs "a1" "bob@college.edu"
        "mine" none "t2").2 "a1" "bob@college.edu" = 1 ∧
    lookupD (submit_assignment submitSampleSubs "a1" "bob@college.edu"
        "mine" none "t2").2 "b2" = lookupD submitSampleSubs "b2" ∧
    (submit_project submitSampleSubs "a1" "bob@college.edu" "mine" none none
        "t2").1.1 = true ∧
    countPair (submit_project submitSampleSubs "a1" "bob@college.edu" "mine"
        none none "t2").2 "a1" "bob@college.edu" = 1 := by
  have hdup := (submit_uniqueness submitSampleSubs "a1" "alice@college.edu"
    "again" none none "t2").1 (by decide)
  have hfresh := (submit_uniqueness submitSampleSubs "a1" "bob@college.edu"
    "mine" none none "t2").2 (by decide)
  exact ⟨hdup.1, hdup.2, hfresh.1.1, hfresh.1.2.2.1,
    hfresh.1.2.2.2 "b2" (by decide), hfresh.2.1, hfresh.2.2.2.1⟩

/-- Under a non-empty supplied attribute, the Python truthiness guards of one
targeting clause collapse to plain membership. -/
theorem visibility_clause_eq_memOpt (o : Option String)
    (l : Option (List String)) (h : o ≠ some "") :
    (pyTruthyS o && pyTruthyL l && memOpt o l) = memOpt o l := by
  cases o with
  | none => simp [pyTruthyS, memOpt]
  | some s =>
      have hs : ¬(s == "") = true := by
        simp
        intro he
        exact h (by rw [he])
      cases l with
      | none => simp [pyTruthyS, pyTruthyL, memOpt]
      | some xs =>
          cases xs with
          | nil => simp [pyTruthyS, pyTruthyL, memOpt]
          | cons x rest =>
              simp [pyTruthyS, pyTruthyL, memOpt, hs]

/-- With no target list equal to `some []`, the Python falsiness test of the
broadcast clause coincides with the fields being unset. -/
theorem broadcast_clause_eq_isNone (tr td te : Option (List String))
    (h1 : tr ≠ some []) (h2 : td ≠ some []) (h3 : te ≠ some []) :
    (!pyTruthyL tr && !pyTruthyL td && !pyTruthyL te) =
      (tr.isNone && td.isNone && te.isNone) := by
  have hone : ∀ (l : Option (List String)), l ≠ some [] →
      (!pyTruthyL l) = l.isNone := by
    intro l hl
    cases l with
    | none => simp [pyTruthyL]
    | some xs =>
        cases xs with
        | nil => exact absurd rfl hl
        | cons x rest => simp [pyTruthyL]
  rw [hone tr h1, hone td h2, hone te h3]

/-- Claim C2: `get_filtered_announcements(role, department, email)` returns
exactly the stored announcements, in store order, that are broadcast (no
targeting set) or whose `target_roles`/`target_departments`/`target_emails`
contain the supplied role/department/email — an OR across the three target
dimensions.  The viewer attributes are `none` or non-empty strings (an empty
string is falsy in the source) and target lists are `none` or non-empty, as
the callers produce. -/
theorem filtered_announcements_or_semantics (anns : List Announcement)
    (role department email : Option String)
    (hr : role ≠ some "") (hd : department ≠ some "") (he : email ≠ some "")
    (hw : ∀ a ∈ anns, a.target_roles ≠ some [] ∧
        a.target_departments ≠ some [] ∧ a.target_emails ≠ some []) :
    get_filtered_announcements anns role department email =
      anns.filter (specVisible role department email) := by
  unfold get_filtered_announcements
  apply List.filter_congr
  intro a ha
  obtain ⟨h1, h2, h3⟩ := hw a ha
  unfold announcementVisible specVisible
  rw [visibility_clause_eq_memOpt role a.target_roles hr,
    visibility_clause_eq_memOpt department a.target_departments hd,
    visibility_clause_eq_memOpt email a.target_emails he,
    broadcast_clause_eq_isNone a.target_roles a.target_departments
      a.target_emails h1 h2 h3]

/-- A broadcast announcement (no targeting). -/
def annBroadcast : Announcement :=
  { announcement_id := 1, title := "Welcome", content := "Hello all",
    author_email := "admin@college.edu", target_roles := none,
    target_departments := none, target_emails := none,
    created_at := "2024-01-01" }

/-- An announcement targeted at teachers only. -/
def annTeachersOnly : Announcement :=
  { announcement_id := 2, title := "Staff meeting", content := "Room 5",
    author_email := "admin@college.edu", target_roles := some ["teacher"],
    target_departments := none, target_emails := none,
    created_at := "2024-01-02" }

/-- Claim C2 (witness): for a student viewer, the filter over a broadcast
announcement and a teachers-only announcement matches the spec predicate
(which keeps only the broadcast one). -/
theorem filtered_announcements_or_semantics_witness :
    get_filtered_announcements [annBroadcast, annTeachersOnly]
        (some "student") none (some "student@college.edu") =
      List.filter (specVisible (some "student") none
        (some "student@college.edu")) [annBroadcast, annTeachersOnly] ∧
    get_filtered_announcements [annBroadcast, annTeachersOnly]
        (some "student") none (some "student@college.edu") =
      [annBroadcast] := by
  constructor
  · exact filtered_announcements_or_semantics [annBroadcast, annTeachersOnly]
      (some "student") none (some "student@college.edu")
      (by decide) (by decide) (by decide) (by decide)
  · decide

/-- The `if course_id not in doc: doc[course_id] = default` key-ensuring
pattern does not change what a subsequent read of that key defaults to. -/
theorem lookupD_ensure_getD {α : Type} (d : Dict α) (k : String) (v0 : α) :
    (lookupD (if containsD d k then d else insertD d k v0) k).getD v0 =
      (lookupD d k).getD v0 := by
  by_cases h : containsD d k
  · simp [h]
  · have hl : lookupD d k = none :=
      lookupD_eq_none_of_contains_false d k (by simpa using h)
    simp [h, hl, lookupD_insertD_self]

/-- The key-ensuring pattern leaves every other key untouched. -/
theorem lookupD_ensure_ne {α : Type} (d : Dict α) (k k' : String) (v0 : α)
    (h : k' ≠ k) :
    lookupD (if containsD d k then d else insertD d k v0) k' =
      lookupD d k' := by
  by_cases hc : containsD d k
  · simp [hc]
  · simp [hc, lookupD_insertD_ne d k k' v0 h]

/-- After `mark_attendance`, the per-(course, date) student map is the old
one with the cell of that student overwritten. -/
theorem mark_attendance_lookup2_self (att : Attendance)
    (course_id date student_email status now : String) :
    lookup2 (mark_attendance att course_id date student_email status now).2
        course_id date =
      some (insertD ((lookup2 att course_id date).getD []) student_email
        { status := status, marked_at := now }) := by
  unfold mark_attendance lookup2
  simp only [lookupD_insertD_self, Option.getD_some]
  rw [lookupD_ensure_getD, lookupD_ensure_getD]

/-- `mark_attendance` leaves every other (course, date, student) triple
unchanged. -/
theorem mark_attendance_lookup3_other (att : Attendance)
    (course_id date student_email status now c d e : String)
    (h : ¬(c = course_id ∧ d = date ∧ e = student_email)) :
    lookup3 (mark_attendance att course_id date student_email status now).2
        c d e = lookup3 att c d e := by
  by_cases hc : c = course_id
  · subst hc
    by_cases hd2 : d = date
    · subst hd2
      have he2 : e ≠ student_email := by
        intro hcontra
        exact h ⟨rfl, rfl, hcontra⟩
      unfold lookup3
      rw [mark_attendance_lookup2_self]
      simp only [Option.getD_some]
      exact lookupD_insertD_ne _ student_email e _ he2
    · unfold lookup3 lookup2 mark_attendance
      simp only [lookupD_insertD_self, Option.getD_some]
      rw [lookupD_insertD_ne _ date d _ hd2]
      rw [lookupD_ensure_ne _ date d _ hd2]
      rw [lookupD_ensure_getD]
  · unfold lookup3 lookup2 mark_attendance
    simp only []
    rw [lookupD_insertD_ne _ course_id c _ hc]
    rw [lookupD_ensure_ne _ course_id c _ hc]

/-- Claim C6: `mark_attendance` always succeeds; re-marking the same
(course, date, student) triple overwrites in place, leaving exactly one
record for the triple carrying the latest status, and no other triple is
affected. -/
theorem mark_attendance_last_write_wins (att : Attendance)
    (course_id date student_email st1 now1 st2 now2 : String)
    (h : countKey ((lookup2 att course_id date).getD []) student_email ≤ 1) :
    (mark_attendance att course_id date student_email st1 now1).1
      = (true, "Attendance marked successfully") ∧
    lookup3 (mark_attendance (mark_attendance att course_id date
        student_email st1 now1).2 course_id date student_email st2 now2).2
        course_id date student_email
      = some { status := st2, marked_at := now2 } ∧
    countKey3 (mark_attendance (mark_attendance att course_id date
        student_email st1 now1).2 course_id date student_email st2 now2).2
        course_id date student_email = 1 ∧
    (∀ c d e, ¬(c = course_id ∧ d = date ∧ e = student_email) →
      lookup3 (mark_attendance (mark_attendance att course_id date
          student_email st1 now1).2 course_id date student_email st2 now2).2
          c d e = lookup3 att c d e) := by
  have e2 : lookup2 (mark_attendance (mark_attendance att course_id date
      student_email st1 now1).2 course_id date student_email st2 now2).2
      course_id date
      = some (insertD ((lookup2 att course_id date).getD []) student_email
          { status := st2, marked_at := now2 }) := by
    rw [mark_attendance_lookup2_self, mark_attendance_lookup2_self]
    simp only [Option.getD_some]
    rw [insertD_insertD]
  refine ⟨rfl, ?_, ?_, ?_⟩
  · unfold lookup3
    rw [e2]
    simp only [Option.getD_some]
    exact lookupD_insertD_self _ student_email _
  · unfold countKey3
    rw [e2]
    simp only [Option.getD_some]
    exact countKey_insertD _ student_email _ h
  · intro c d e hne
    rw [mark_attendance_lookup3_other _ _ _ _ _ _ _ _ _ hne,
      mark_attendance_lookup3_other _ _ _ _ _ _ _ _ _ hne]

/-- Claim C6 (witness): on the empty attendance store, marking Present then
Absent for the same triple leaves one record with status Absent and does not
affect a triple of another course. -/
theorem mark_attendance_last_write_wins_witness :
    (mark_attendance [] "CS101" "2024-01-10" "student@college.edu" "Present"
        "t1").1 = (true, "Attendance marked successfully") ∧
    lookup3 (mark_attendance (mark_attendance [] "CS101" "2024-01-10"
        "student@college.edu" "Present" "t1").2 "CS101" "2024-01-10"
        "student@college.edu" "Absent" "t2").2 "CS101" "2024-01-10"
        "student@college.edu"
      = some { status := "Absent", marked_at := "t2" } ∧
    countKey3 (mark_attendance (mark_attendance [] "CS101" "2024-01-10"
        "student@college.edu" "Present" "t1").2 "CS101" "2024-01-10"
        "student@college.edu" "Absent" "t2").2 "CS101" "2024-01-10"
        "student@college.edu" = 1 ∧
    lookup3 (mark_attendance (mark_attendance [] "CS101" "2024-01-10"
        "student@college.edu" "Present" "t1").2 "CS101" "2024-01-10"
        "student@college.edu" "Absent" "t2").2 "MATH1" "2024-01-10"
        "student@college.edu"
      = lookup3 [] "MATH1" "2024-01-10" "student@college.edu" := by
  have h := mark_attendance_last_write_wins [] "CS101" "2024-01-10"
    "student@college.edu" "Present" "t1" "Absent" "t2" (by decide)
  exact ⟨h.1, h.2.1, h.2.2.1,
    h.2.2.2 "MATH1" "2024-01-10" "student@college.edu" (by decide)⟩

/-- Claim C8: a successful `submit_certificate` writes the data-directory
certificates document keyed `student_email → list`, while
`get_student_certificates` loads the distinct relative path
`"certificates.json"` and scans it as `certificate_id → record`; hence the
query result is unaffected by the submit (the round trip never surfaces the
submitted certificate), and the query raises when the document it loads has
the list-valued shape `submit_certificate` writes. -/
theorem certificate_submit_query_disconnect (fs : CertFS)
    (student_email title issuing_organization issue_date : String)
    (file_path : Option String) (now : String)
    (r : (Bool × String) × CertFS)
    (hok : submit_certificate fs student_email title issuing_organization
        issue_date file_path now = Except.ok r) :
    r.1 = (true, "Certificate submitted successfully") ∧
    (∃ lst rec, lookupD (loadCertDoc r.2 CERTIFICATES_FILE) student_email
        = some (CertEntry.certList (lst ++ [rec])) ∧
        rec.submitted_at = now) ∧
    CERTIFICATES_FILE ≠ STUDENT_CERTIFICATES_PATH ∧
    get_student_certificates r.2 student_email
      = get_student_certificates fs student_email ∧
    (∀ (fs2 : CertFS) (k : String) (l : List CertRecord)
        (restDoc : CertDoc) (email2 : String),
      lookupD fs2 STUDENT_CERTIFICATES_PATH
          = some ((k, CertEntry.certList l) :: restDoc) →
      ∃ msg, get_student_certificates fs2 email2 = Except.error msg) := by
  simp only [submit_certificate] at hok
  cases hent : (lookupD (loadCertDoc fs CERTIFICATES_FILE)
      student_email).getD (CertEntry.certList []) with
  | certObj c =>
      rw [hent] at hok
      simp at hok
  | certList lst =>
      rw [hent] at hok
      simp only [Except.ok.injEq] at hok
      subst hok
      refine ⟨rfl, ?_, by decide, ?_, ?_⟩
      · refine ⟨lst,
          { certificate_id :=
              student_email ++ "_" ++ toString (lst.length + 1),
            title := title, issuing_organization := issuing_organization,
            issue_date := issue_date, file_path := file_path,
            submitted_at := now }, ?_, rfl⟩
        unfold loadCertDoc
        rw [lookupD_insertD_self]
        simp only [Option.getD_some]
        rw [lookupD_insertD_self]
      · unfold get_student_certificates loadCertDoc
        rw [lookupD_insertD_ne _ CERTIFICATES_FILE
          STUDENT_CERTIFICATES_PATH _ (by decide)]
      · intro fs2 k l restDoc email2 hfe
        unfold get_student_certificates loadCertDoc
        rw [hfe]
        exact ⟨"AttributeError: list object has no attribute get", rfl⟩

/-- The concrete result of submitting one certificate on an empty file
system. -/
def certSubmitSampleResult : (Bool × String) × CertFS :=
  ((true, "Certificate submitted successfully"),
   [(CERTIFICATES_FILE,
     [("student@college.edu",
       CertEntry.certList
         [{ certificate_id := "student@college.edu_1", title := "AWS",
            issuing_organization := "Amazon", issue_date := "2024-01-01",
            file_path := none, submitted_at := "t0" }])])])

/-- Claim C8 (witness): on an empty file system, the submit succeeds yet a
subsequent query for the same student reads the other path and returns what
it returned before; on a document with the submit shape, the query errors. -/
theorem certificate_submit_query_disconnect_witness :
    certSubmitSampleResult.1 = (true, "Certificate submitted successfully") ∧
    get_student_certificates certSubmitSampleResult.2 "student@college.edu"
      = get_student_certificates [] "student@college.edu" ∧
    (∃ msg, get_student_certificates
        [(STUDENT_CERTIFICATES_PATH,
          [("cert_1", CertEntry.certList [])])] "x@college.edu"
      = Except.error msg) := by
  have h := certificate_submit_query_disconnect [] "student@college.edu"
    "AWS" "Amazon" "2024-01-01" none "t0" certSubmitSampleResult rfl
  exact ⟨h.1, h.2.2.2.1,
    h.2.2.2.2 [(STUDENT_CERTIFICATES_PATH,
      [("cert_1", CertEntry.certList [])])] "cert_1" [] [] "x@college.edu"
      rfl⟩

/-- Claim C10: every mutating operation of the user, course, assignment,
submission, certificate, announcement and department repositories that
reports failure performs no save: after any failed call the persisted
document(s) are exactly as before the call. -/
theorem failed_mutations_preserve_state :
    (∀ (courses : Dict Course) course_id course_name department teacher_email
        description credits now,
      (add_course courses course_id course_name department teacher_email
          description credits now).1.1 = false →
      (add_course courses course_id course_name department teacher_email
          description credits now).2 = courses) ∧
    (∀ (courses : Dict Course) course_id applyKwargs,
      (update_course courses course_id applyKwargs).1.1 = false →
      (update_course courses course_id applyKwargs).2 = courses) ∧
    (∀ (courses : Dict Course) course_id,
      (delete_course courses course_id).1.1 = false →
      (delete_course courses course_id).2 = courses) ∧
    (∀ (assignments : Dict (List Assignment)) course_id assignment_id
        applyKwargs,
      (update_assignment assignments course_id assignment_id
          applyKwargs).1.1 = false →
      (update_assignment assignments course_id assignment_id
          applyKwargs).2 = assignments) ∧
    (∀ (assignments : Dict (List Assignment)) course_id assignment_id,
      (delete_assignment assignments course_id assignment_id).1.1 = false →
      (delete_assignment assignments course_id assignment_id).2
        = assignments) ∧
    (∀ (subs : Dict (List Submission)) assignment_id student_email
        submission_text file_path now,
      (submit_assignment subs assignment_id student_email submission_text
          file_path now).1.1 = false →
      (submit_assignment subs assignment_id student_email submission_text
          file_path now).2 = subs) ∧
    (∀ (subs : Dict (List Submission)) project_id student_email
        submission_text file_path group_members now,
      (submit_project subs project_id student_email submission_text
          file_path group_members now).1.1 = false →
      (submit_project subs project_id student_email submission_text
          file_path group_members now).2 = subs) ∧
    (∀ (subs : Dict (List Submission)) assignment_id student_email grade
        feedback now,
      (grade_submission subs assignment_id student_email grade feedback
          now).1.1 = false →
      (grade_submission subs assignment_id student_email grade feedback
          now).2 = subs) ∧
    (∀ (certs : Dict (List CertRecord)) student_email certificate_id now,
      (verify_certificate certs student_email certificate_id now).1.1
          = false →
      (verify_certificate certs student_email certificate_id now).2
        = certs) ∧
    (∀ (anns : List Announcement) announcement_id,
      (delete_announcement anns announcement_id).1.1 = false →
      (delete_announcement anns announcement_id).2 = anns) ∧
    (∀ (hash : String → String) (users : Dict User) email password role name
        now department student_id year,
      (create_user hash users email password role name now department
          student_id year).1.1 = false →
      (create_user hash users email password role name now department
          student_id year).2 = users) ∧
    (∀ (hash : String → String) (users : Dict User) email password
        applyOther,
      (update_user hash users email password applyOther).1.1 = false →
      (update_user hash users email password applyOther).2 = users) ∧
    (∀ (users : Dict User) email,
      (delete_user users email).1.1 = false →
      (delete_user users email).2 = users) ∧
    (∀ (departments : Dict Department) dept_id name hod_email description
        now,
      (add_department departments dept_id name hod_email description
          now).1.1 = false →
      (add_department departments dept_id name hod_email description
          now).2 = departments) ∧
    (∀ (departments : Dict Department) dept_id name hod_email description,
      (update_department departments dept_id name hod_email
          description).1.1 = false →
      (update_department departments dept_id name hod_email
          description).2 = departments) ∧
    (∀ (departments : Dict Department) (courses : Dict Course) dept_id,
      (delete_department departments courses dept_id).1.1 = false →
      (delete_department departments courses dept_id).2 = departments) ∧
    (∀ (att : Attendance) (subs : Dict (List Submission))
        (assignments : Dict (List Assignment))
        (projects : Dict (List Project)) course_id student_email,
      (remove_student_from_course att subs assignments projects course_id
          student_email).1.1 = false →
      (remove_student_from_course att subs assignments projects course_id
          student_email).2.1 = att ∧
      (remove_student_from_course att subs assignments projects course_id
          student_email).2.2 = subs) := by
  refine ⟨?_, ?_, ?_, ?_, ?_, ?_, ?_, ?_, ?_, ?_, ?_, ?_, ?_, ?_, ?_, ?_,
    ?_⟩
  · intro courses course_id course_name department teacher_email description
      credits now h
    by_cases hc : containsD courses course_id
    · simp [add_course, hc]
    · simp [add_course, hc] at h
  · intro courses course_id applyKwargs h
    cases hl : lookupD courses course_id with
    | none => simp [update_course, hl]
    | some c => simp [update_course, hl] at h
  · intro courses course_id h
    by_cases hc : containsD courses course_id
    · simp [delete_course, hc] at h
    · simp [delete_course, hc]
  · intro assignments course_id assignment_id applyKwargs h
    cases hl : lookupD assignments course_id with
    | none => simp [update_assignment, hl]
    | some lst =>
        cases hu : updateFirstBy
            (fun a => a.assignment_id == assignment_id) applyKwargs lst with
        | none => simp [update_assignment, hl, hu]
        | some lst1 => simp [update_assignment, hl, hu] at h
  · intro assignments course_id assignment_id h
    cases hl : lookupD assignments course_id with
    | none => simp [delete_assignment, hl]
    | some lst =>
        cases hu : removeFirstBy
            (fun a => a.assignment_id == assignment_id) lst with
        | none => simp [delete_assignment, hl, hu]
        | some lst1 => simp [delete_assignment, hl, hu] at h
  · intro subs assignment_id student_email submission_text file_path now h
    by_cases hany : (submissionsFor subs assignment_id).any
        (fun s => s.student_email == student_email)
    · rw [submit_assignment_duplicate subs assignment_id student_email
        submission_text file_path now hany]
    · rw [submit_assignment_fresh subs assignment_id student_email
        submission_text file_path now (by simpa using hany)] at h
      simp at h
  · intro subs project_id student_email submission_text file_path
      group_members now h
    by_cases hany : (submissionsFor subs project_id).any
        (fun s => s.student_email == student_email)
    · rw [submit_project_duplicate subs project_id student_email
        submission_text file_path group_members now hany]
    · rw [submit_project_fresh subs project_id student_email submission_text
        file_path group_members now (by simpa using hany)] at h
      simp at h
  · intro subs assignment_id student_email grade feedback now h
    cases hl : lookupD subs assignment_id with
    | none => simp [grade_submission, hl]
    | some lst =>
        cases hu : updateFirstBy (fun s => s.student_email == student_email)
            (fun s => { s with grade := some grade, feedback := feedback,
                               graded_at := some now }) lst with
        | none => simp [grade_submission, hl, hu]
        | some lst1 => simp [grade_submission, hl, hu] at h
  · intro certs student_email certificate_id now h
    by_cases hc : containsD certs student_email
    · cases hu : updateFirstBy
          (fun c => c.certificate_id == certificate_id)
          (fun c => { c with verified := true, verified_at := some now })
          ((lookupD certs student_email).getD []) with
      | none => simp [verify_certificate, hc, hu]
      | some lst1 => simp [verify_certificate, hc, hu] at h
    · simp [verify_certificate, hc]
  · intro anns announcement_id h
    cases hr : removeFirstBy
        (fun a => a.announcement_id == announcement_id) anns with
    | none => simp [delete_announcement, hr]
    | some anns1 => simp [delete_announcement, hr] at h
  · intro hash users email password role name now department student_id year
      h
    by_cases hc : containsD users email
    · simp [create_user, hc]
    · simp [create_user, hc] at h
  · intro hash users email password applyOther h
    cases hl : lookupD users email with
    | none => simp [update_user, hl]
    | some u => simp [update_user, hl] at h
  · intro users email h
    by_cases hc : containsD users email
    · simp [delete_user, hc] at h
    · simp [delete_user, hc]
  · intro departments dept_id name hod_email description now h
    by_cases hc : containsD departments dept_id
    · simp [add_department, hc]
    · simp [add_department, hc] at h
  · intro departments dept_id name hod_email description h
    cases hl : lookupD departments dept_id with
    | none => simp [update_department, hl]
    | some d => simp [update_department, hl] at h
  · intro departments courses dept_id h
    cases hl : lookupD departments dept_id with
    | none => simp [delete_department, hl]
    | some dept =>
        by_cases hin : courses.any (fun kv => kv.2.department == dept.name)
        · simp [delete_department, hl, hin]
        · simp [delete_department, hl, hin] at h
  · intro att subs assignments projects course_id student_email h
    cases hl : lookupD att course_id with
    | none => simp [remove_student_from_course, hl]
    | some dates =>
        by_cases hrem : dates.any (fun dv => containsD dv.2 student_email)
        · simp [remove_student_from_course, hl, hrem] at h
        · simp [remove_student_from_course, hl, hrem]

/-- A one-course store used to exercise the duplicate-id failure of
`add_course`. -/
def atomSampleCourses : Dict Course :=
  [("CS101", { course_name := "Intro", department := "Computer Science",
               teacher_email := "teacher@college.edu", description := "",
               credits := 3, created_at := "2024-01-01" })]

/-- A one-user store used to exercise the duplicate-email failure of
`create_user`. -/
def atomSampleUsers : Dict User :=
  [("admin@college.edu",
    { password := "d0", role := "admin", name := "Admin User",
      created_at := "2024-01-01" })]

/-- A one-department store used to exercise the duplicate-id failure of
`add_department`. -/
def atomSampleDepartments : Dict Department :=
  [("CS", { name := "Computer Science", hod_email := "teacher@college.edu",
            description := "", created_at := "2024-01-01" })]

/-- A one-entry submissions store used to exercise the duplicate-submission
failures. -/
def atomSampleSubs : Dict (List Submission) :=
  [("p1", [{ student_email := "alice@college.edu",
             submission_text := "v1",
             submitted_at := "2024-01-10" }])]

/-- Claim C10 (witness): every listed repository mutation, at a concrete
failing input, leaves its store(s) exactly as they were. -/
theorem failed_mutations_preserve_state_witness :
    (add_course atomSampleCourses "CS101" "Intro again" "Math"
        "t2@college.edu" "" 4 "t9").2 = atomSampleCourses ∧
    (update_course [] "CS101" (fun c => c)).2 = [] ∧
    (delete_course [] "CS101").2 = [] ∧
    (update_assignment [] "CS101" "CS101_1" (fun a => a)).2 = [] ∧
    (delete_assignment [] "CS101" "CS101_1").2 = [] ∧
    (submit_assignment atomSampleSubs "p1" "alice@college.edu" "v2" none
        "t9").2 = atomSampleSubs ∧
    (submit_project atomSampleSubs "p1" "alice@college.edu" "v2" none none
        "t9").2 = atomSampleSubs ∧
    (grade_submission [] "CS101_1" "alice@college.edu" 85 none "t9").2
      = [] ∧
    (verify_certificate [] "alice@college.edu" "alice@college.edu_1"
        "t9").2 = [] ∧
    (delete_announcement [] 1).2 = [] ∧
    (create_user (fun s => s) atomSampleUsers "admin@college.edu" "pw"
        "admin" "Admin" "t9" none none none).2 = atomSampleUsers ∧
    (update_user (fun s => s) [] "ghost@college.edu" none (fun u => u)).2
      = [] ∧
    (delete_user [] "ghost@college.edu").2 = [] ∧
    (add_department atomSampleDepartments "CS" "Computer Science"
        "teacher@college.edu" "" "t9").2 = atomSampleDepartments ∧
    (update_department [] "CS" "CS" "teacher@college.edu" "").2 = [] ∧
    (delete_department [] [] "CS").2 = [] ∧
    ((remove_student_from_course [] [] [] [] "CS101"
        "alice@college.edu").2.1 = ([] : Attendance) ∧
      (remove_student_from_course [] [] [] [] "CS101"
        "alice@college.edu").2.2 = ([] : Dict (List Submission))) := by
  have h := failed_mutations_preserve_state
  refine ⟨h.1 atomSampleCourses "CS101" "Intro again" "Math" "t2@college.edu"
      "" 4 "t9" (by decide),
    h.2.1 [] "CS101" (fun c => c) rfl,
    h.2.2.1 [] "CS101" rfl,
    h.2.2.2.1 [] "CS101" "CS101_1" (fun a => a) rfl,
    h.2.2.2.2.1 [] "CS101" "CS101_1" rfl,
    h.2.2.2.2.2.1 atomSampleSubs "p1" "alice@college.edu" "v2" none "t9"
      (by decide),
    h.2.2.2.2.2.2.1 atomSampleSubs "p1" "alice@college.edu" "v2" none none
      "t9" (by decide),
    h.2.2.2.2.2.2.2.1 [] "CS101_1" "alice@college.edu" 85 none "t9" rfl,
    h.2.2.2.2.2.2.2.2.1 [] "alice@college.edu" "alice@college.edu_1" "t9"
      rfl,
    h.2.2.2.2.2.2.2.2.2.1 [] 1 rfl,
    h.2.2.2.2.2.2.2.2.2.2.1 (fun s => s) atomSampleUsers "admin@college.edu"
      "pw" "admin" "Admin" "t9" none none none (by decide),
    h.2.2.2.2.2.2.2.2.2.2.2.1 (fun s => s) [] "ghost@college.edu" none
      (fun u => u) rfl,
    h.2.2.2.2.2.2.2.2.2.2.2.2.1 [] "ghost@college.edu" rfl,
    h.2.2.2.2.2.2.2.2.2.2.2.2.2.1 atomSampleDepartments "CS"
      "Computer Science" "teacher@college.edu" "" "t9" (by decide),
    h.2.2.2.2.2.2.2.2.2.2.2.2.2.2.1 [] "CS" "CS" "teacher@college.edu" ""
      rfl,
    h.2.2.2.2.2.2.2.2.2.2.2.2.2.2.2.1 [] [] "CS" rfl,
    h.2.2.2.2.2.2.2.2.2.2.2.2.2.2.2.2 [] [] [] [] "CS101"
      "alice@college.edu" rfl⟩
